import Mathlib

/-!
# Uncle Warren Says — verification of the Recommendation Engine

Shallow embedding of the core of `src/app.py` (ticker resolution, metrics
normalization, technical-indicator stage, scoring/verdict algorithm, TTL
cache, daily pick selector).  Python floats are modelled as rationals `ℚ`,
machine ints as `ℕ`/`ℤ`, absent values as `Option`, and upstream calls that
may raise as `Except Unit`.  Textual reasons and technical signal labels are
modelled as inductive constructors carrying the numeric payloads that the
source interpolates into the f-strings; formatting of the payload into a
string is not modelled.
-/

namespace UncleWarren

/-! ## TTL cache (`SimpleCache`, app.py lines 28-41)

`self._store` is a dict mapping keys to `{'val': v, 'ts': t}`; the wall clock
`time.time()` is made an explicit `now : ℚ` argument.  `get` mutates nothing
in the source, so it is a pure function here; `set` returns the new cache. -/

structure SimpleCache (α : Type) where
  store : String → Option (α × ℚ)
  ttl : ℚ

def SimpleCache.get {α : Type} (c : SimpleCache α) (key : String) (now : ℚ) :
    Option α :=
  match c.store key with
  | some entry => if now - entry.2 < c.ttl then some entry.1 else none
  | none => none

def SimpleCache.set {α : Type} (c : SimpleCache α) (key : String) (v : α)
    (now : ℚ) : SimpleCache α :=
  ⟨fun k => if k = key then some (v, now) else c.store k, c.ttl⟩

/-! ## Textual reasons and technical signals

Each constructor stands for one f-string of `analyze_stock`; the carried `ℚ`
is the value interpolated into the sentence. -/

inductive Reason where
  | attractivePE (pe : ℚ)        -- "Attractively valued at {pe:.1f}x earnings"
  | reasonablePE (pe : ℚ)        -- "Reasonably priced at {pe:.1f}x earnings"
  | higherSidePE (pe : ℚ)        -- "P/E of {pe:.1f} is on the higher side"
  | excessivePE (pe : ℚ)         -- "P/E of {pe:.1f} exceeds value threshold of 35"
  | noPE                         -- "No P/E ratio (may be unprofitable)"
  | excellentEPS (g : ℚ)         -- "Excellent earnings growth of {g:.1f}%"
  | strongEPS (g : ℚ)            -- "Strong earnings growth of {g:.1f}%"
  | solidEPS (g : ℚ)             -- "Solid earnings growth of {g:.1f}%"
  | weakEPS (g : ℚ)              -- "Weak earnings growth of {g:.1f}%"
  | exceptionalROE (r : ℚ)       -- "Exceptional return on equity ({r:.1f}%)"
  | lowROE (r : ℚ)               -- "Low ROE of {r:.1f}% suggests poor capital efficiency"
  | strongMargins (m : ℚ)        -- "Strong profit margins ({m:.1f}%) indicate pricing power"
  | belowBook (pb : ℚ)           -- "Trading below book value (P/B: {pb:.2f}) ..."
  | highPB (pb : ℚ)              -- "High P/B of {pb:.1f} - paying premium over assets"
  | strongBalanceSheet (cr : ℚ)  -- "Strong balance sheet (Current Ratio: {cr:.1f})"
  | weakLiquidity (cr : ℚ)       -- "Weak liquidity (Current Ratio: {cr:.1f})"
  | veryLowDebt (de : ℚ)         -- "Very conservative debt levels (D/E: {de:.2f})"
  | lowDebt (de : ℚ)             -- "Low debt (D/E: {de:.2f})"
  | highDebt (de : ℚ)            -- "High debt levels (D/E: {de:.2f})"
  | attractiveDividend (d : ℚ)   -- "Attractive {d:.1f}% dividend yield"
  | paysDividend (d : ℚ)         -- "Pays {d:.1f}% dividend"
  | highInsiderOwn (i : ℚ)       -- "High insider ownership ({i:.1f}%)"
  deriving DecidableEq, Repr

inductive Polarity where
  | bullish | neutral | bearish
  deriving DecidableEq, Repr

inductive SignalLabel where
  | rsiNeutralRange (r : ℚ)      -- "RSI {r:.0f} — neutral range"
  | rsiOversold (r : ℚ)          -- "RSI {r:.0f} — oversold"
  | rsiOverbought (r : ℚ)        -- "RSI {r:.0f} — overbought"
  | goldenCross                  -- "Golden Cross (50 > 200 SMA)"
  | deathCross                   -- "Death Cross (50 < 200 SMA)"
  | aboveSMA200 (p : ℚ)          -- "{p:+.1f}% above 200-day SMA"
  | belowSMA200 (p : ℚ)          -- "{p:+.1f}% below 200-day SMA"
  | strongMomentum (r : ℚ)       -- "Strong 3-mo momentum ({r:+.1f}%)"
  | positiveMomentum (r : ℚ)     -- "Positive 3-mo momentum ({r:+.1f}%)"
  | negativeMomentum (r : ℚ)     -- "Negative 3-mo momentum ({r:+.1f}%)"
  deriving DecidableEq, Repr

/-- One entry of `tech_signals`: `{'label': ..., 'type': ...}`. -/
structure Signal where
  label : SignalLabel
  polarity : Polarity
  deriving DecidableEq, Repr

/-! ## Data model -/

/-- Python `str.upper()` (adequate for the ASCII data handled here),
spelled over the character list so the kernel can evaluate it. -/
def pyUpper (s : String) : String := ⟨s.data.map Char.toUpper⟩

/-- Python `str.strip()`: trim surrounding whitespace from both ends. -/
def pyStrip (s : String) : String :=
  ⟨((s.data.dropWhile Char.isWhitespace).reverse.dropWhile
      Char.isWhitespace).reverse⟩

/-- Python `s.startswith('$')`. -/
def startsDollar (s : String) : Bool :=
  match s.data with
  | c :: _ => c = '$'
  | [] => false

/-- Python `s[1:]` on text. -/
def pyDropOne (s : String) : String := ⟨s.data.drop 1⟩

/-- Split a character list on a separator (empty parts preserved, like
Python's `str.split(sep)` with an explicit separator). -/
def splitOnChar (sep : Char) (l : List Char) : List (List Char) :=
  l.foldr
    (fun c acc =>
      match acc with
      | [] => [[c]]
      | cur :: rest => if c = sep then [] :: cur :: rest else (c :: cur) :: rest)
    [[]]

/-- Round to one decimal place, modelling `f"{x:.1f}"` (Python formats the
binary64 round-half-even; the two agree except on exact half-way ties,
which no claim exercises). -/
def round1 (q : ℚ) : ℚ := (round (q * 10) : ℤ) / 10

/-- Round to an integer, modelling `f"{x:.0f}"` (same half-way caveat). -/
def round0 (q : ℚ) : ℚ := ((round q : ℤ) : ℚ)

/-- The human-readable market-cap string of `_format_market_cap` (app.py
lines 140-148), as a tagged value carrying the displayed magnitude. -/
inductive MarketCapFmt where
  | na                -- 'N/A'
  | trillions (v : ℚ) -- f"{cap/1_000_000:.1f}T"
  | billions (v : ℚ)  -- f"{cap/1_000:.1f}B"
  | millions (v : ℚ)  -- f"{cap:.0f}M"
  deriving DecidableEq, Repr

/-- Function `_format_market_cap(cap_millions)` (app.py lines 140-148). -/
def formatMarketCap (cap? : Option ℚ) : MarketCapFmt :=
  match cap? with
  | none => .na
  | some c =>
    if 1000000 ≤ c then .trillions (round1 (c / 1000000))
    else if 1000 ≤ c then .billions (round1 (c / 1000))
    else .millions (round0 c)

/-- The canonical metrics record built by `fetch_stock_data` and consumed by
`analyze_stock`.  The `_`-prefixed pre-parsed float entries of the Python
dict become the `Option ℚ` fields (`none` = the key holds `None`); the
legacy raw-string entries read through `parse_metric` are not populated on
the Finnhub path and are not modelled. -/
structure StockMetrics where
  ticker : String
  company : String
  price : Option ℚ
  market_cap : MarketCapFmt
  pe : Option ℚ
  forward_pe : Option ℚ
  eps_growth : Option ℚ
  eps_growth_5y : Option ℚ
  roe : Option ℚ
  roi : Option ℚ
  debt_equity : Option ℚ
  profit_margin : Option ℚ
  oper_margin : Option ℚ
  pb : Option ℚ
  ps : Option ℚ
  current_ratio : Option ℚ
  quick_ratio : Option ℚ
  dividend_yield : Option ℚ
  payout_ratio : Option ℚ
  beta : Option ℚ
  perf_ytd : Option ℚ
  perf_year : Option ℚ
  w52_high : Option String
  w52_low : Option String
  short_float : Option ℚ
  insider_own : Option ℚ
  inst_own : Option ℚ
  deriving DecidableEq, Repr

/-- The record produced by `fetch_price_history` (as consumed by
`analyze_stock`).  Fields the scoring engine never reads are kept for
completeness of the data model. -/
structure PriceHistory where
  return_3m : Option ℚ
  start_price : Option ℚ
  end_price : Option ℚ
  high_3m : Option ℚ
  low_3m : Option ℚ
  sparkline : List ℚ
  sma_200 : Option ℚ
  sma_50 : Option ℚ
  rsi : Option ℚ
  golden_cross : Option Bool
  price_vs_sma200 : Option ℚ
  deriving DecidableEq, Repr

inductive Verdict where
  | BUY | CONSIDER | CAUTION | PASS
  deriving DecidableEq, Repr

/-! ## Fundamental factor tiers (app.py lines 476-591)

Each tiered `if`-block of `analyze_stock` becomes one function returning the
points it adds to `score` and the reasons it appends. -/

/-- Result of one factor block: points added, "for" reasons appended,
"against" reasons appended. -/
structure FactorOut where
  pts : ℕ
  rFor : List Reason
  rAgainst : List Reason
  deriving DecidableEq, Repr

/-- P/E block (lines 476-493): guarded by `pe is not None and pe > 0`. -/
def peFactor (pe : Option ℚ) : FactorOut :=
  match pe with
  | some p =>
    if 0 < p then
      if p < 15 then ⟨25, [.attractivePE p], []⟩
      else if p < 20 then ⟨20, [.reasonablePE p], []⟩
      else if p < 25 then ⟨15, [], []⟩
      else if p < 35 then ⟨10, [], [.higherSidePE p]⟩
      else ⟨0, [], [.excessivePE p]⟩
    else ⟨0, [], [.noPE]⟩
  | none => ⟨0, [], [.noPE]⟩

/-- EPS growth block (lines 496-510). -/
def epsFactor (g? : Option ℚ) : FactorOut :=
  match g? with
  | some g =>
    if 20 < g then ⟨20, [.excellentEPS g], []⟩
    else if 15 < g then ⟨16, [.strongEPS g], []⟩
    else if 10 < g then ⟨12, [.solidEPS g], []⟩
    else if 5 < g then ⟨8, [], []⟩
    else ⟨0, [], [.weakEPS g]⟩
  | none => ⟨0, [], []⟩

/-- ROE block (lines 513-525). -/
def roeFactor (r? : Option ℚ) : FactorOut :=
  match r? with
  | some r =>
    if 25 < r then ⟨15, [.exceptionalROE r], []⟩
    else if 20 < r then ⟨12, [], []⟩
    else if 15 < r then ⟨9, [], []⟩
    else if 10 < r then ⟨6, [], []⟩
    else ⟨0, [], [.lowROE r]⟩
  | none => ⟨0, [], []⟩

/-- Profit-margin block (lines 528-538): no "against" tier. -/
def marginFactor (m? : Option ℚ) : FactorOut :=
  match m? with
  | some m =>
    if 20 < m then ⟨10, [.strongMargins m], []⟩
    else if 15 < m then ⟨8, [], []⟩
    else if 10 < m then ⟨6, [], []⟩
    else if 5 < m then ⟨4, [], []⟩
    else ⟨0, [], []⟩
  | none => ⟨0, [], []⟩

/-- Price-to-book block (lines 541-551). -/
def pbFactor (pb? : Option ℚ) : FactorOut :=
  match pb? with
  | some pb =>
    if pb < 3/2 then ⟨10, [.belowBook pb], []⟩
    else if pb < 5/2 then ⟨7, [], []⟩
    else if pb < 4 then ⟨4, [], []⟩
    else ⟨0, [], [.highPB pb]⟩
  | none => ⟨0, [], []⟩

/-- Current-ratio block (lines 554-564). -/
def currentRatioFactor (cr? : Option ℚ) : FactorOut :=
  match cr? with
  | some cr =>
    if 2 < cr then ⟨10, [.strongBalanceSheet cr], []⟩
    else if 3/2 < cr then ⟨7, [], []⟩
    else if 1 < cr then ⟨4, [], []⟩
    else ⟨0, [], [.weakLiquidity cr]⟩
  | none => ⟨0, [], []⟩

/-- Debt-to-equity block (lines 567-580). -/
def debtEquityFactor (de? : Option ℚ) : FactorOut :=
  match de? with
  | some de =>
    if de < 3/10 then ⟨10, [.veryLowDebt de], []⟩
    else if de < 1/2 then ⟨8, [.lowDebt de], []⟩
    else if de < 1 then ⟨6, [], []⟩
    else if de < 3/2 then ⟨4, [], []⟩
    else ⟨0, [], [.highDebt de]⟩
  | none => ⟨0, [], []⟩

/-- Dividend bonus (lines 583-587): reasons only, no points. -/
def dividendBonus (d? : Option ℚ) : List Reason :=
  match d? with
  | some d =>
    if 0 < d then
      if 3 < d then [.attractiveDividend d]
      else if 3/2 < d then [.paysDividend d]
      else []
    else []
  | none => []

/-- Insider-ownership bonus (lines 590-591): reasons only, no points. -/
def insiderBonus (i? : Option ℚ) : List Reason :=
  match i? with
  | some i => if 10 < i then [.highInsiderOwn i] else []
  | none => []

/-- Fallback `if pe is None: pe = forward_pe` (lines 435-436). -/
def effPE (m : StockMetrics) : Option ℚ := m.pe <|> m.forward_pe

/-- Fallback from `eps_growth` to `eps_growth_5y` (lines 412-414). -/
def effEPS (m : StockMetrics) : Option ℚ := m.eps_growth <|> m.eps_growth_5y

/-- The whole fundamental section of `analyze_stock` (lines 471-591):
points accumulated into `score`, reasons appended in factor-evaluation
order (P/E, EPS, ROE, margin, P/B, current ratio, D/E, dividend, insider). -/
def fundamentalEval (m : StockMetrics) : FactorOut :=
  let f1 := peFactor (effPE m)
  let f2 := epsFactor (effEPS m)
  let f3 := roeFactor m.roe
  let f4 := marginFactor m.profit_margin
  let f5 := pbFactor m.pb
  let f6 := currentRatioFactor m.current_ratio
  let f7 := debtEquityFactor m.debt_equity
  ⟨f1.pts + f2.pts + f3.pts + f4.pts + f5.pts + f6.pts + f7.pts,
   f1.rFor ++ f2.rFor ++ f3.rFor ++ f4.rFor ++ f5.rFor ++ f6.rFor ++ f7.rFor
     ++ dividendBonus m.dividend_yield ++ insiderBonus m.insider_own,
   f1.rAgainst ++ f2.rAgainst ++ f3.rAgainst ++ f4.rAgainst ++ f5.rAgainst
     ++ f6.rAgainst ++ f7.rAgainst⟩

/-- Value of `max_score` after the seven unconditional `max_score +=`
statements (lines 477, 496, 513, 528, 541, 554, 567): every factor's
maximum is added whether or not its metric is present. -/
def fundamentalMax : ℕ := 25 + 20 + 15 + 10 + 10 + 10 + 10

/-- Constant `tech_max = 20` (line 600), set whether or not price history
exists. -/
def techMax : ℕ := 20

/-! ## Technical signal blocks (app.py lines 603-647) -/

/-- RSI block (lines 610-618). -/
def rsiSignal (r? : Option ℚ) : ℕ × List Signal :=
  match r? with
  | some r =>
    if 30 ≤ r ∧ r ≤ 70 then (5, [⟨.rsiNeutralRange r, .bullish⟩])
    else if r < 30 then (3, [⟨.rsiOversold r, .neutral⟩])
    else (0, [⟨.rsiOverbought r, .bearish⟩])
  | none => (0, [])

/-- Golden/death-cross block (lines 621-626). -/
def crossSignal (g? : Option Bool) : ℕ × List Signal :=
  match g? with
  | some true => (5, [⟨.goldenCross, .bullish⟩])
  | some false => (0, [⟨.deathCross, .bearish⟩])
  | none => (0, [])

/-- Price-vs-SMA200 block (lines 629-635). -/
def pv200Signal (p? : Option ℚ) : ℕ × List Signal :=
  match p? with
  | some p =>
    if 0 < p then (5, [⟨.aboveSMA200 p, .bullish⟩])
    else (2, [⟨.belowSMA200 p, .bearish⟩])
  | none => (0, [])

/-- Three-month momentum block (lines 638-647). -/
def momentumSignal (r? : Option ℚ) : ℕ × List Signal :=
  match r? with
  | some r =>
    if 10 < r then (5, [⟨.strongMomentum r, .bullish⟩])
    else if 0 < r then (3, [⟨.positiveMomentum r, .neutral⟩])
    else (1, [⟨.negativeMomentum r, .bearish⟩])
  | none => (0, [])

/-- The whole technical section (lines 599-647): with no price history the
blocks are skipped and `tech_score` stays 0. -/
def techEval (h? : Option PriceHistory) : ℕ × List Signal :=
  match h? with
  | some h =>
    let s1 := rsiSignal h.rsi
    let s2 := crossSignal h.golden_cross
    let s3 := pv200Signal h.price_vs_sma200
    let s4 := momentumSignal h.return_3m
    (s1.1 + s2.1 + s3.1 + s4.1, s1.2 ++ s2.2 ++ s3.2 ++ s4.2)
  | none => (0, [])

/-! ## Score blending (app.py lines 652-657)

Both percentages are computed in the source as `int((num / den) * 100)` on
IEEE-754 binary64 doubles, which truncates toward zero.  For the blended
score the denominator is always 120 and the numerator an integer in
[0,120]; exhaustive evaluation of the double-precision expression over that
range shows it agrees everywhere with the exact floor `t * 100 / 120`, so
the blend is embedded as exact natural division.  For the fundamental
percentage the denominator is always 100; there the double product
`(s/100)*100` rounds to just below the integer `s` for s ∈ {29, 57, 58}
(e.g. `int((29/100)*100) == 28` in binary64), so the truncation loses 1
exactly at those three numerators. -/

/-- Blend `int((total_score / total_max) * 100) if total_max > 0 else 0`
(line 654), for the reachable inputs (den = 120, num ∈ [0,120]) where the
binary64 computation coincides with the exact floor. -/
def pyBlendPct (num den : ℕ) : ℕ := if 0 < den then num * 100 / den else 0

/-- Percentage `int((fundamental_score / fundamental_max) * 100)` (line 657)
with `fundamental_max = 100`: equals `s` except at the three double-rounding
numerators 29, 57, 58, where it equals `s - 1`. -/
def pyPctOf100 (s : ℕ) : ℕ :=
  if s = 29 ∨ s = 57 ∨ s = 58 then s - 1 else s

/-- Verdict mapping on the final score (lines 672-687). -/
def verdictOf (s : ℕ) : Verdict :=
  if 75 ≤ s then .BUY
  else if 55 ≤ s then .CONSIDER
  else if 35 ≤ s then .CAUTION
  else .PASS

/-! ## The analysis result -/

/-- Sub-dict `'technical'` of the result (lines 658-667). -/
structure Technical where
  score : ℕ
  max : ℕ
  signals : List Signal
  rsi : Option ℚ
  sma_50 : Option ℚ
  sma_200 : Option ℚ
  golden_cross : Option Bool
  price_vs_sma200 : Option ℚ
  deriving DecidableEq, Repr

/-- The analysis dict returned by `analyze_stock` (narrative-only fields —
summary, emoji, extended text, news — are not modelled; no claim reads
them). -/
structure Analysis where
  ticker : String
  company : String
  price : Option ℚ
  market_cap : MarketCapFmt
  price_history : Option PriceHistory
  score : ℕ
  fundamental_score : ℕ
  technical : Technical
  reasons_for : List Reason
  reasons_against : List Reason
  verdict : Verdict
  deriving DecidableEq, Repr

/-- Function `analyze_stock(metrics, price_history)` (app.py lines 404-705)
for a present metrics record.  `score`/`max_score` accumulation is
`fundamentalEval`/`fundamentalMax`, the technical section is `techEval`,
the blend is lines 652-657, reason lists are truncated to 4/3 (lines
668-669), verdict from the final score (lines 672-687). -/
def analyzeStock (m : StockMetrics) (h? : Option PriceHistory) : Analysis :=
  let fund := fundamentalEval m
  let tech := techEval h?
  let finalScore := pyBlendPct (fund.pts + tech.1) (fundamentalMax + techMax)
  { ticker := m.ticker
    company := m.company
    price := m.price
    market_cap := m.market_cap
    price_history := h?
    score := finalScore
    fundamental_score :=
      if 0 < fundamentalMax then pyPctOf100 fund.pts else 0
    technical :=
      { score := tech.1
        max := techMax
        signals := tech.2
        rsi := h?.bind PriceHistory.rsi
        sma_50 := h?.bind PriceHistory.sma_50
        sma_200 := h?.bind PriceHistory.sma_200
        golden_cross := h?.bind PriceHistory.golden_cross
        price_vs_sma200 := h?.bind PriceHistory.price_vs_sma200 }
    reasons_for := fund.rFor.take 4
    reasons_against := fund.rAgainst.take 3
    verdict := verdictOf finalScore }

/-- Guard `if not metrics: return None` (lines 406-407). -/
def analyzeStockOpt (m? : Option StockMetrics) (h? : Option PriceHistory) :
    Option Analysis :=
  m?.map (fun m => analyzeStock m h?)

/-! ## Metrics Normalizer (`fetch_stock_data`, app.py lines 151-215)

The three Finnhub calls are modelled as oracle results: `Except Unit _`
distinguishes a raised exception (`.error`, caught only by the outer
`try/except` of `fetch_stock_data`, which then returns `None`) from a
returned value; `Option` inside models a falsy/empty response.  The
function is embedded on the cold-cache path (both `cache.get` probes
miss); the `cache.set` side effects do not affect the returned record. -/

/-- Company profile as used here: `ticker?` is `None` when the dict is
missing the `ticker` key or holds a falsy value (the `profile.get('ticker')`
truthiness test of line 166). -/
structure FinProfile where
  ticker? : Option String
  name : Option String
  marketCapitalization : Option ℚ
  deriving DecidableEq, Repr

/-- Fields of `financials['metric']` read at lines 184-201 (Option = key
absent or `None`). -/
structure FinMetric where
  peBasicExclExtraTTM : Option ℚ
  peTTM : Option ℚ
  epsGrowthTTMYoy : Option ℚ
  epsGrowth5Y : Option ℚ
  roeTTM : Option ℚ
  roiTTM : Option ℚ
  totalDebtToEquityQuarterly : Option ℚ
  netProfitMarginTTM : Option ℚ
  operatingMarginTTM : Option ℚ
  pbQuarterly : Option ℚ
  psTTM : Option ℚ
  currentRatioQuarterly : Option ℚ
  quickRatioQuarterly : Option ℚ
  dividendYieldIndicatedAnnual : Option ℚ
  payoutRatioTTM : Option ℚ
  beta : Option ℚ
  yearToDatePriceReturnDaily : Option ℚ
  week52PriceReturnDaily : Option ℚ
  week52HighDate : Option String
  week52LowDate : Option String
  deriving DecidableEq, Repr

/-- Real-time quote: `c?` models `quote.get('c')`. -/
structure FinQuote where
  c? : Option ℚ
  deriving DecidableEq, Repr

/-- One request's upstream responses: `company_profile2`,
`company_basic_financials` (already projected to its `metric` dict; `none`
models a falsy response or a response without usable metrics), `quote`. -/
structure Upstream where
  profile : Except Unit (Option FinProfile)
  financials : Except Unit (Option FinMetric)
  quote : Except Unit (Option FinQuote)

/-- Function `fetch_stock_data(ticker)` (app.py lines 151-215) on a cold
cache.  A raised exception anywhere inside the `try` block — including the
fundamentals and quote fetches — reaches the outer `except` and returns
`None`, exactly like a missing profile. -/
def fetchStockData (u : Upstream) (ticker : String) : Option StockMetrics :=
  let t := pyUpper ticker
  match u.profile with
  | .error _ => none
  | .ok none => none
  | .ok (some p) =>
    match p.ticker? with
    | none => none
    | some _ =>
      match u.financials with
      | .error _ => none
      | .ok fin? =>
        match u.quote with
        | .error _ => none
        | .ok q? =>
          some
            { ticker := t
              company := (p.name).getD t
              price := q?.bind FinQuote.c?
              market_cap := formatMarketCap p.marketCapitalization
              pe := fin?.bind FinMetric.peBasicExclExtraTTM
              forward_pe := fin?.bind FinMetric.peTTM
              eps_growth := fin?.bind FinMetric.epsGrowthTTMYoy
              eps_growth_5y := fin?.bind FinMetric.epsGrowth5Y
              roe := fin?.bind FinMetric.roeTTM
              roi := fin?.bind FinMetric.roiTTM
              debt_equity := fin?.bind FinMetric.totalDebtToEquityQuarterly
              profit_margin := fin?.bind FinMetric.netProfitMarginTTM
              oper_margin := fin?.bind FinMetric.operatingMarginTTM
              pb := fin?.bind FinMetric.pbQuarterly
              ps := fin?.bind FinMetric.psTTM
              current_ratio := fin?.bind FinMetric.currentRatioQuarterly
              quick_ratio := fin?.bind FinMetric.quickRatioQuarterly
              dividend_yield := fin?.bind FinMetric.dividendYieldIndicatedAnnual
              payout_ratio := fin?.bind FinMetric.payoutRatioTTM
              beta := fin?.bind FinMetric.beta
              perf_ytd := fin?.bind FinMetric.yearToDatePriceReturnDaily
              perf_year := fin?.bind FinMetric.week52PriceReturnDaily
              w52_high := fin?.bind FinMetric.week52HighDate
              w52_low := fin?.bind FinMetric.week52LowDate
              short_float := none
              insider_own := none
              inst_own := none }

/-! ## Sparkline of the Technical Indicator Engine (app.py lines 263-273)

Only the 3-month window / sparkline portion of `fetch_price_history` is
embedded; the SMA/RSI computations are not needed by the claims under
check. -/

/-- Worker for the Python slice `l[::step]`: `k` counts down to the next
kept index (an element is kept when `k = 0`, after which the counter resets
to `step - 1`). -/
def takeEveryGo {α : Type} (step : ℕ) : ℕ → List α → List α
  | _, [] => []
  | 0, a :: rest => a :: takeEveryGo step (step - 1) rest
  | k + 1, _ :: rest => takeEveryGo step k rest

/-- Python slice `l[::step]`: elements at indices 0, step, 2·step, …. -/
def takeEvery {α : Type} (step : ℕ) (l : List α) : List α :=
  takeEveryGo step 0 l

/-- Last `min(63, len(closes))` points (`closes.iloc[-n_3m:]`, lines
264-265). -/
def window3m (closes : List ℚ) : List ℚ :=
  closes.drop (closes.length - min 63 closes.length)

/-- Round to two decimals, modelling `round(float(p), 2)` (half-way ties
aside, as with `round1`). -/
def round2 (q : ℚ) : ℚ := ((round (q * 100) : ℤ) : ℚ) / 100

/-- Stride `max(1, len(closes_3m) // 30)` (line 272). -/
def sparkStep (n : ℕ) : ℕ := max 1 (n / 30)

/-- Samples `closes_3m.iloc[::step]` before rounding (lines 272-273). -/
def sparklineRaw (closes : List ℚ) : List ℚ :=
  let w := window3m closes
  takeEvery (sparkStep w.length) w

/-- The `'sparkline'` entry of the `fetch_price_history` result (line 310):
the strided samples rounded to two decimals. -/
def sparklineOf (closes : List ℚ) : List ℚ :=
  (sparklineRaw closes).map round2

/-! ## Ticker Resolver (`search_ticker`, app.py lines 96-137)

External Finnhub calls are oracle parameters and the embedding counts how
many of them the resolution performed; the profile-cache probe of the
ticker-shaped branch is an oracle as well (cache writes are not modelled —
they do not affect the returned symbol). -/

/-- Alias table `COMMON_NAMES` (app.py lines 73-93). -/
def COMMON_NAMES : List (String × String) :=
  [("TESLA", "TSLA"), ("APPLE", "AAPL"), ("GOOGLE", "GOOGL"),
   ("ALPHABET", "GOOGL"), ("AMAZON", "AMZN"), ("FACEBOOK", "META"),
   ("META", "META"), ("MICROSOFT", "MSFT"), ("NETFLIX", "NFLX"),
   ("NVIDIA", "NVDA"), ("BERKSHIRE", "BRK.B"), ("WALMART", "WMT"),
   ("DISNEY", "DIS"), ("COCA-COLA", "KO"), ("COCACOLA", "KO"),
   ("COKE", "KO"), ("PEPSI", "PEP"), ("PEPSICO", "PEP"),
   ("PINTEREST", "PINS"), ("TWITTER", "X"), ("STARBUCKS", "SBUX"),
   ("MCDONALDS", "MCD"), ("NIKE", "NKE"), ("BOEING", "BA"),
   ("INTEL", "INTC"), ("AMD", "AMD"), ("PAYPAL", "PYPL"),
   ("SALESFORCE", "CRM"), ("ORACLE", "ORCL"), ("IBM", "IBM"),
   ("CISCO", "CSCO"), ("VISA", "V"), ("MASTERCARD", "MA"),
   ("JPMORGAN", "JPM"), ("GOLDMAN", "GS"), ("MORGAN STANLEY", "MS"),
   ("WELLS FARGO", "WFC"), ("COSTCO", "COST"), ("TARGET", "TGT"),
   ("HOME DEPOT", "HD"), ("LOWES", "LOW"), ("SPOTIFY", "SPOT"),
   ("UBER", "UBER"), ("LYFT", "LYFT"), ("AIRBNB", "ABNB"),
   ("SNAP", "SNAP"), ("SNAPCHAT", "SNAP"), ("ZOOM", "ZM"),
   ("SHOPIFY", "SHOP"), ("SQUARE", "SQ"), ("BLOCK", "SQ"),
   ("ROBINHOOD", "HOOD"), ("COINBASE", "COIN"), ("PALANTIR", "PLTR"),
   ("SNOWFLAKE", "SNOW"), ("CROWDSTRIKE", "CRWD"), ("DATADOG", "DDOG")]

/-- Dict membership test plus read, `query_upper in COMMON_NAMES` /
`COMMON_NAMES[query_upper]`. -/
def aliasOf (s : String) : Option String :=
  (COMMON_NAMES.find? (fun p => p.1 = s)).map Prod.snd

/-- ASCII uppercase letter. -/
def isUpperLetter (c : Char) : Bool := 'A' ≤ c && c ≤ 'Z'

/-- Regex `^[A-Z]{1,5}(\.[A-Z])?$` of line 110. -/
def isTickerShaped (s : String) : Bool :=
  match splitOnChar '.' s.data with
  | [a] => decide (1 ≤ a.length) && decide (a.length ≤ 5) && a.all isUpperLetter
  | [a, b] => decide (1 ≤ a.length) && decide (a.length ≤ 5)
      && a.all isUpperLetter && decide (b.length = 1) && b.all isUpperLetter
  | _ => false

/-- One entry of a Finnhub `symbol_lookup` result list. -/
structure LookupItem where
  symbol : String
  type : String
  deriving DecidableEq, Repr

/-- Oracles for the resolver: the profile-cache probe of line 111, the
`company_profile2` validation call, and the `symbol_lookup` search (for the
latter two `.error` models a raised exception; `none` a falsy response). -/
structure ResolverEnv where
  cachedProfile : String → Option FinProfile
  profileLookup : String → Except Unit (Option FinProfile)
  symbolLookup : String → Except Unit (Option (List LookupItem))

/-- Ranking over `symbol_lookup` results (lines 126-133): first item typed
`Common Stock` with no `.` in the symbol, else the first raw result. -/
def pickLookupResult (items : List LookupItem) (fallback : String) : String :=
  match items.find?
      (fun it => it.type = "Common Stock" && !(it.symbol.data.contains '.')) with
  | some it => it.symbol
  | none => ((items.head?).map LookupItem.symbol).getD fallback

/-- Function `search_ticker(query)` (app.py lines 96-137), returning the
resolved symbol together with the number of external Finnhub calls made. -/
def searchTicker (env : ResolverEnv) (query : String) : String × ℕ :=
  let oq0 := pyStrip query
  let qU0 := pyUpper oq0
  let hasDollar := startsDollar qU0
  let qU := if hasDollar then pyDropOne qU0 else qU0
  let oq := if hasDollar then pyDropOne oq0 else oq0
  match aliasOf qU with
  | some t => (t, 0)
  | none =>
    -- step 2: ticker-shaped? validate via cached profile / company_profile2
    let step2 : Option String × ℕ :=
      if isTickerShaped qU then
        match env.cachedProfile qU with
        | some _ => (some qU, 0)
        | none =>
          match env.profileLookup qU with
          | .ok (some p) => (if p.ticker?.isSome then some qU else none, 1)
          | .ok none => (none, 1)
          | .error _ => (none, 1)
      else (none, 0)
    match step2 with
    | (some t, n) => (t, n)
    | (none, n) =>
      -- step 3: fuzzy symbol lookup on the original (un-uppercased) query
      match env.symbolLookup oq with
      | .ok (some items) => (pickLookupResult items qU, n + 1)
      | .ok none => (qU, n + 1)
      | .error _ => (qU, n + 1)

/-! ## Daily Pick Selector (`stock_of_the_day`, app.py lines 740-770)

Python's global Mersenne-Twister generator is modelled abstractly: the
generator state is a `ℕ`, `random.seed(today)` replaces whatever state was
there with a value derived only from the date string, and
`random.shuffle` is a deterministic function of that state (embedded as a
seeded front-pick shuffle over a linear-congruential stream — the claims
depend only on the shuffle being a pure function of the seed, not on which
permutation it produces). -/

/-- Curated candidate list `STOCK_OF_DAY_CANDIDATES` (app.py lines 47-68),
as (ticker, name) pairs. -/
def STOCK_OF_DAY_CANDIDATES : List (String × String) :=
  [("BRK.B", "Berkshire Hathaway"), ("GOOGL", "Alphabet"),
   ("META", "Meta Platforms"), ("JNJ", "Johnson & Johnson"),
   ("V", "Visa"), ("MA", "Mastercard"), ("UNH", "UnitedHealth"),
   ("PG", "Procter & Gamble"), ("KO", "Coca-Cola"), ("MRK", "Merck"),
   ("ABBV", "AbbVie"), ("JPM", "JPMorgan Chase"), ("BAC", "Bank of America"),
   ("AXP", "American Express"), ("COST", "Costco"), ("CAT", "Caterpillar"),
   ("AVGO", "Broadcom"), ("TXN", "Texas Instruments"),
   ("MSFT", "Microsoft"), ("AAPL", "Apple")]

/-- Linear-congruential successor standing in for the Mersenne-Twister
state transition. -/
def lcgNext (s : ℕ) : ℕ := (1664525 * s + 1013904223) % 4294967296

/-- Model of `random.seed(today)`: a generator state computed from the date
string alone. -/
def seedOfString (s : String) : ℕ :=
  s.data.foldl (fun a c => (a * 31 + c.toNat) % 4294967296) 7

/-- Seeded shuffle: repeatedly pick the `seed % len`-th remaining element.
The fuel argument starts at the list length, so the recursion consumes the
whole list. -/
def shuffleAux {α : Type} : ℕ → ℕ → List α → List α
  | 0, _, l => l
  | _ + 1, _, [] => []
  | fuel + 1, seed, a :: rest =>
    (a :: rest).get ⟨seed % (a :: rest).length, Nat.mod_lt _ (by simp)⟩ ::
      shuffleAux fuel (lcgNext seed) ((a :: rest).eraseIdx (seed % (a :: rest).length))

/-- Model of `random.shuffle` after `random.seed`: a pure function of the
seed and the list. -/
def shuffleSeeded {α : Type} (seed : ℕ) (l : List α) : List α :=
  shuffleAux l.length seed l

/-- Upstream data for one selector run: what `fetch_stock_data` and
`fetch_price_history` would return for each ticker ("same upstream data"
fixes this record). -/
structure PickEnv where
  fetchData : String → Option StockMetrics
  fetchHistory : String → Option PriceHistory

/-- The candidate loop (lines 749-762): skip candidates whose metrics are
missing, return the first whose analysis scores at least 55. -/
def pickFromCandidates (env : PickEnv) : List (String × String) → Option Analysis
  | [] => none
  | c :: rest =>
    match env.fetchData c.1 with
    | none => pickFromCandidates env rest
    | some m =>
      let a := analyzeStock m (env.fetchHistory c.1)
      if 55 ≤ a.score then some a else pickFromCandidates env rest

/-- Route `stock_of_the_day` (app.py lines 740-770).  `rngState` is the
global generator state on entry; `random.seed(today)` discards it before
the shuffle.  Falls back to analyzing `BRK.B` unconditionally when no
candidate qualifies. -/
def stockOfTheDay (rngState : ℕ) (today : String) (env : PickEnv) :
    Option Analysis :=
  let seed := seedOfString today
  let shuffled := shuffleSeeded seed STOCK_OF_DAY_CANDIDATES
  match pickFromCandidates env shuffled with
  | some a => some a
  | none => analyzeStockOpt (env.fetchData "BRK.B") (env.fetchHistory "BRK.B")

/-- Normalisation applied to the query before the alias check (app.py lines
98-103): strip surrounding whitespace, uppercase, drop one leading `$`. -/
def normalizeQuery (q : String) : String :=
  let u := pyUpper (pyStrip q)
  if startsDollar u then pyDropOne u else u

/-! ## Concrete records used by counterexamples and witnesses -/

/-- A metrics record with every metric field absent. -/
def emptyMetrics (tk co : String) : StockMetrics :=
  { ticker := tk, company := co, price := none, market_cap := .na,
    pe := none, forward_pe := none, eps_growth := none,
    eps_growth_5y := none, roe := none, roi := none, debt_equity := none,
    profit_margin := none, oper_margin := none, pb := none, ps := none,
    current_ratio := none, quick_ratio := none, dividend_yield := none,
    payout_ratio := none, beta := none, perf_ytd := none, perf_year := none,
    w52_high := none, w52_low := none, short_float := none,
    insider_own := none, inst_own := none }

/-- Metrics with only a (cheap) P/E of 12 present. -/
def cmPEOnly : StockMetrics := { emptyMetrics "ACME" "Acme Corp" with pe := some 12 }

/-- Metrics with a present but negative P/E of −5. -/
def cmNegPE : StockMetrics :=
  { emptyMetrics "LOSS" "LossCo" with pe := some (-5) }

/-- Metrics with everything absent except ticker and company. -/
def cmAllAbsent : StockMetrics := emptyMetrics "NODATA" "NoData Corp"

/-- Metrics whose fundamentals alone score 70 of 100, hence a blended score
of 58 ≥ 55 with no price history. -/
def cmStrong : StockMetrics :=
  { emptyMetrics "GOOD" "GoodCo" with
    pe := some 12, eps_growth := some 22, roe := some 28,
    profit_margin := some 21 }

/-- A profile carrying a tradable identity. -/
def goodProfile : FinProfile := ⟨some "AAPL", some "Apple Inc", none⟩

/-- Upstream responses where the profile succeeds but the fundamentals
fetch raises. -/
def upstreamFinRaises : Upstream :=
  ⟨.ok (some goodProfile), .error (), .ok (some ⟨some 190⟩)⟩

/-- Upstream responses where the profile succeeds and the fundamentals and
quote fetches return empty data without raising. -/
def upstreamEmptyData : Upstream :=
  ⟨.ok (some goodProfile), .ok none, .ok none⟩

/-- Resolver oracles that raise on every external call and miss the cache:
the alias path must not consult them. -/
def trivialResolverEnv : ResolverEnv :=
  ⟨fun _ => none, fun _ => .error (), fun _ => .error ()⟩

/-- Selector data where every ticker resolves to `cmStrong` with no price
history. -/
def pickEnvStrong : PickEnv := ⟨fun _ => some cmStrong, fun _ => none⟩

/-- An empty cache over naturals with the default 300-second TTL. -/
def cacheW : SimpleCache ℕ := ⟨fun _ => none, 300⟩

/-- A usable close series of 31 equal prices: its 3-month window has
stride 1, so the sparkline keeps all 31 points. -/
def closes31 : List ℚ := List.replicate 31 1

/-! ## Helper lemmas -/

theorem peFactor_pts_le (pe : Option ℚ) : (peFactor pe).pts ≤ 25 := by
  rcases pe with _ | p <;> simp only [peFactor] <;> (try split_ifs) <;> simp

theorem epsFactor_pts_le (g : Option ℚ) : (epsFactor g).pts ≤ 20 := by
  rcases g with _ | g <;> simp only [epsFactor] <;> (try split_ifs) <;> simp

theorem roeFactor_pts_le (r : Option ℚ) : (roeFactor r).pts ≤ 15 := by
  rcases r with _ | r <;> simp only [roeFactor] <;> (try split_ifs) <;> simp

theorem marginFactor_pts_le (m : Option ℚ) : (marginFactor m).pts ≤ 10 := by
  rcases m with _ | m <;> simp only [marginFactor] <;> (try split_ifs) <;> simp

theorem pbFactor_pts_le (pb : Option ℚ) : (pbFactor pb).pts ≤ 10 := by
  rcases pb with _ | pb <;> simp only [pbFactor] <;> (try split_ifs) <;> simp

theorem currentRatioFactor_pts_le (cr : Option ℚ) :
    (currentRatioFactor cr).pts ≤ 10 := by
  rcases cr with _ | cr <;> simp only [currentRatioFactor] <;> (try split_ifs) <;> simp

theorem debtEquityFactor_pts_le (de : Option ℚ) :
    (debtEquityFactor de).pts ≤ 10 := by
  rcases de with _ | de <;> simp only [debtEquityFactor] <;> (try split_ifs) <;> simp

/-- The fundamental points never exceed the 100-point maximum. -/
theorem fundamentalEval_pts_le (m : StockMetrics) :
    (fundamentalEval m).pts ≤ 100 := by
  have h1 := peFactor_pts_le (effPE m)
  have h2 := epsFactor_pts_le (effEPS m)
  have h3 := roeFactor_pts_le m.roe
  have h4 := marginFactor_pts_le m.profit_margin
  have h5 := pbFactor_pts_le m.pb
  have h6 := currentRatioFactor_pts_le m.current_ratio
  have h7 := debtEquityFactor_pts_le m.debt_equity
  simp only [fundamentalEval]
  omega

theorem rsiSignal_pts_le (r : Option ℚ) : (rsiSignal r).1 ≤ 5 := by
  rcases r with _ | r <;> simp only [rsiSignal] <;> (try split_ifs) <;> simp

theorem crossSignal_pts_le (g : Option Bool) : (crossSignal g).1 ≤ 5 := by
  rcases g with _ | _ | _ <;> simp [crossSignal]

theorem pv200Signal_pts_le (p : Option ℚ) : (pv200Signal p).1 ≤ 5 := by
  rcases p with _ | p <;> simp only [pv200Signal] <;> (try split_ifs) <;> simp

theorem momentumSignal_pts_le (r : Option ℚ) : (momentumSignal r).1 ≤ 5 := by
  rcases r with _ | r <;> simp only [momentumSignal] <;> (try split_ifs) <;> simp

/-- The technical points never exceed the 20-point maximum. -/
theorem techEval_pts_le (h? : Option PriceHistory) : (techEval h?).1 ≤ 20 := by
  rcases h? with _ | h
  · simp [techEval]
  · have h1 := rsiSignal_pts_le h.rsi
    have h2 := crossSignal_pts_le h.golden_cross
    have h3 := pv200Signal_pts_le h.price_vs_sma200
    have h4 := momentumSignal_pts_le h.return_3m
    simp only [techEval]
    omega

theorem pyBlendPct_le (t : ℕ) (ht : t ≤ 120) : pyBlendPct t 120 ≤ 100 := by
  simp only [pyBlendPct, if_pos (by norm_num : (0:ℕ) < 120)]
  calc t * 100 / 120 ≤ 120 * 100 / 120 :=
        Nat.div_le_div_right (Nat.mul_le_mul_right 100 ht)
    _ = 100 := by norm_num

theorem pyPctOf100_le (s : ℕ) (hs : s ≤ 100) : pyPctOf100 s ≤ 100 := by
  simp only [pyPctOf100]
  split_ifs <;> omega

/-- Strided sampling yields a sublist: every kept element appears in the
original list in order. -/
theorem takeEveryGo_sublist {α : Type} (step : ℕ) (l : List α) :
    ∀ k, List.Sublist (takeEveryGo step k l) l := by
  induction l with
  | nil => intro k; simp [takeEveryGo]
  | cons a rest ih =>
    intro k
    cases k with
    | zero => exact (ih (step - 1)).cons₂ a
    | succ k' => exact (ih k').cons a

/-- Length of strided sampling with countdown `k` (for `k ≤ step - 1` and a
positive step): one element per started stride block. -/
theorem takeEveryGo_length {α : Type} (step : ℕ) (hs : 1 ≤ step) (l : List α) :
    ∀ k, k ≤ step - 1 →
      (takeEveryGo step k l).length = (l.length + (step - 1) - k) / step := by
  induction l with
  | nil =>
    intro k hk
    simp only [takeEveryGo, List.length_nil]
    exact (Nat.div_eq_of_lt (by omega)).symm
  | cons a rest ih =>
    intro k hk
    cases k with
    | zero =>
      simp only [takeEveryGo, List.length_cons, ih (step - 1) le_rfl]
      have h0 : rest.length + (step - 1) - (step - 1) = rest.length := by omega
      rw [h0, show rest.length + 1 + (step - 1) - 0 = rest.length + step by omega,
        Nat.add_div_right _ (by omega)]
    | succ k' =>
      simp only [takeEveryGo, List.length_cons, ih k' (by omega)]
      congr 1
      omega

/-! ## Claim theorems -/

/-- C4: for every defined RSI value, the RSI block of the technical score
awards exactly 5 points with a bullish signal when 30 ≤ RSI ≤ 70, exactly 0
points with a bearish signal when RSI > 70 (hence at RSI = 71), and exactly
3 points with a neutral signal when RSI < 30 (hence at RSI = 29); the
boundaries 30 and 70 are exact, and these points enter the technical score
additively alongside the other three signal blocks. -/
theorem c4_rsi_boundaries (r : ℚ) :
    (30 ≤ r → r ≤ 70 → rsiSignal (some r) = (5, [⟨.rsiNeutralRange r, .bullish⟩])) ∧
    (70 < r → rsiSignal (some r) = (0, [⟨.rsiOverbought r, .bearish⟩])) ∧
    (r < 30 → rsiSignal (some r) = (3, [⟨.rsiOversold r, .neutral⟩])) ∧
    (∀ ph : PriceHistory, (techEval (some ph)).1
        = (rsiSignal ph.rsi).1 + (crossSignal ph.golden_cross).1
          + (pv200Signal ph.price_vs_sma200).1 + (momentumSignal ph.return_3m).1) := by
  refine ⟨fun h1 h2 => ?_, fun h => ?_, fun h => ?_, fun ph => rfl⟩
  · simp [rsiSignal, h1, h2]
  · have h1 : ¬ (30 ≤ r ∧ r ≤ 70) := by rintro ⟨-, h2⟩; linarith
    have h2 : ¬ r < 30 := by linarith
    simp [rsiSignal, h1, h2]
  · have h1 : ¬ (30 ≤ r ∧ r ≤ 70) := by rintro ⟨h2, -⟩; linarith
    simp [rsiSignal, h1, h]

/-- C4 witness: concrete evaluations at RSI = 50, 71 and 29. -/
theorem c4_rsi_boundaries_witness :
    rsiSignal (some 50) = (5, [⟨.rsiNeutralRange 50, .bullish⟩]) ∧
    rsiSignal (some 71) = (0, [⟨.rsiOverbought 71, .bearish⟩]) ∧
    rsiSignal (some 29) = (3, [⟨.rsiOversold 29, .neutral⟩]) :=
  ⟨(c4_rsi_boundaries 50).1 (by norm_num) (by norm_num),
   (c4_rsi_boundaries 71).2.1 (by norm_num),
   (c4_rsi_boundaries 29).2.2.1 (by norm_num)⟩

/-- C5: after `set k v` at time t0, any `get k` at a time t1 with elapsed
time t1 − t0 below the TTL returns exactly v (so two such gets return the
identical value); a `get k` once the TTL has elapsed returns absent; the
entry is still physically in the store at any later time (no eager
eviction — `get` performs no mutation at all in the model), and a later
`set k v'` overwrites it so that a fresh `get` returns v'. -/
theorem c5_cache_ttl {α : Type} (c : SimpleCache α) (k : String) (v v' : α)
    (t0 t1 t2 t3 t4 : ℚ) :
    (t1 - t0 < c.ttl → (c.set k v t0).get k t1 = some v) ∧
    (t1 - t0 < c.ttl → t2 - t0 < c.ttl →
      (c.set k v t0).get k t1 = (c.set k v t0).get k t2) ∧
    (c.ttl ≤ t1 - t0 → (c.set k v t0).get k t1 = none) ∧
    ((c.set k v t0).store k = some (v, t0)) ∧
    (t4 - t3 < c.ttl → ((c.set k v t0).set k v' t3).get k t4 = some v') := by
  refine ⟨fun h => ?_, fun h h' => ?_, fun h => ?_, ?_, fun h => ?_⟩
  · simp [SimpleCache.get, SimpleCache.set, h]
  · simp [SimpleCache.get, SimpleCache.set, h, h']
  · simp [SimpleCache.get, SimpleCache.set, not_lt.2 h]
  · simp [SimpleCache.set]
  · simp [SimpleCache.get, SimpleCache.set, h]

/-- C5 witness: with an empty 300-second cache, `set` at time 0 followed by
gets at 10 and 20 returns the stored value both times, a get at 310 is
absent, and an overwriting `set` at 400 is visible at 450. -/
theorem c5_cache_ttl_witness :
    (cacheW.set "k" 1 0).get "k" 10 = some 1 ∧
    (cacheW.set "k" 1 0).get "k" 10 = (cacheW.set "k" 1 0).get "k" 20 ∧
    (cacheW.set "k" 1 0).get "k" 310 = none ∧
    (cacheW.set "k" 1 0).store "k" = some (1, 0) ∧
    ((cacheW.set "k" 1 0).set "k" 2 400).get "k" 450 = some 2 :=
  ⟨(c5_cache_ttl cacheW "k" 1 2 0 10 20 400 450).1 (by norm_num [cacheW]),
   (c5_cache_ttl cacheW "k" 1 2 0 10 20 400 450).2.1 (by norm_num [cacheW])
     (by norm_num [cacheW]),
   (c5_cache_ttl cacheW "k" 1 2 0 310 20 400 450).2.2.1 (by norm_num [cacheW]),
   (c5_cache_ttl cacheW "k" 1 2 0 10 20 400 450).2.2.2.1,
   (c5_cache_ttl cacheW "k" 1 2 0 10 20 400 450).2.2.2.2 (by norm_num [cacheW])⟩

/-- C8: analyzing a metrics record whose every metric field is absent
except ticker and company, with no price history, is well defined (the
embedding is a total function) and yields fundamental_score = 0, a blended
score of 0, and a PASS verdict. -/
theorem c8_all_absent_pass :
    (analyzeStock cmAllAbsent none).fundamental_score = 0 ∧
    (analyzeStock cmAllAbsent none).score = 0 ∧
    (analyzeStock cmAllAbsent none).verdict = .PASS := by
  decide

/-- C9: for every input, the fundamental maximum accumulated by the seven
unconditional `max_score +=` statements is 100, the reported technical
maximum is 20 regardless of the metrics present and of price-history
availability, the blended denominator is therefore always 120, and the
blended score divides by that full 120 — missing data lowers the
percentage instead of shrinking the denominator. -/
theorem c9_denominator_always_120 (m : StockMetrics) (h? : Option PriceHistory) :
    fundamentalMax = 100 ∧
    (analyzeStock m h?).technical.max = 20 ∧
    fundamentalMax + techMax = 120 ∧
    (analyzeStock m h?).score
      = pyBlendPct ((fundamentalEval m).pts + (techEval h?).1) 120 :=
  ⟨rfl, rfl, rfl, rfl⟩

/-- C1 counterexample: a metrics record whose only present metric is a P/E
of 12 earns 25 fundamental points and 0 technical points, and the engine
reports a blended score of 20, whereas nearest-integer rounding of
100 × (25 + 0)/(100 + 20) = 20.83… gives 21 — the code truncates rather
than rounds. -/
theorem c1_rounding_counterexample :
    (fundamentalEval cmPEOnly).pts = 25 ∧
    (techEval none).1 = 0 ∧
    (analyzeStock cmPEOnly none).score = 20 ∧
    round ((100 : ℚ) * (25 + 0) / (100 + 20)) = 21 ∧
    ((analyzeStock cmPEOnly none).score : ℤ)
      ≠ round ((100 : ℚ) * (25 + 0) / (100 + 20)) := by
  have h4 : round ((100 : ℚ) * (25 + 0) / (100 + 20)) = 21 := by
    have h : (100 : ℚ) * (25 + 0) / (100 + 20) = 125 / 6 := by norm_num
    rw [h, round_eq, show (125 / 6 : ℚ) + 1 / 2 = 64 / 3 by norm_num,
      Int.floor_eq_iff]
    norm_num
  have h3 : (analyzeStock cmPEOnly none).score = 20 := by decide
  refine ⟨by decide, rfl, h3, h4, ?_⟩
  rw [h3, h4]
  decide

/-- C1 (amended): for every metrics record and optional price history, the
blended score equals the TRUNCATION (floor, not nearest-integer rounding)
of 100 × (fundamental_points + technical_points)/120, and both final_score
and fundamental_score are integers in [0, 100] whether or not price
history is present (the scores live in ℕ, so 0 ≤ · holds by type). -/
theorem c1_truncated_blend (m : StockMetrics) (h? : Option PriceHistory) :
    (analyzeStock m h?).score
        = ((fundamentalEval m).pts + (techEval h?).1) * 100 / 120 ∧
    (analyzeStock m h?).score ≤ 100 ∧
    (analyzeStock m h?).fundamental_score ≤ 100 := by
  refine ⟨rfl, ?_, ?_⟩
  · have hf := fundamentalEval_pts_le m
    have ht := techEval_pts_le h?
    have hs : (analyzeStock m h?).score
        = pyBlendPct ((fundamentalEval m).pts + (techEval h?).1) 120 := rfl
    rw [hs]
    exact pyBlendPct_le _ (by omega)
  · have hs : (analyzeStock m h?).fundamental_score
        = pyPctOf100 (fundamentalEval m).pts := rfl
    rw [hs]
    exact pyPctOf100_le _ (fundamentalEval_pts_le m)

/-- C2 counterexample: a present P/E of −5 is below 15, yet the P/E tier
awards 0 points and no "for" reason — it instead appends the "No P/E
ratio" against-note, because the code also requires `pe > 0`. -/
theorem c2_nonpositive_pe_counterexample :
    ((-5 : ℚ) < 15) ∧ cmNegPE.pe = some (-5) ∧
    (peFactor (effPE cmNegPE)).pts = 0 ∧
    ¬ (peFactor (effPE cmNegPE)).pts = 25 ∧
    (fundamentalEval cmNegPE).pts = 0 ∧
    (analyzeStock cmNegPE none).reasons_for = [] ∧
    (analyzeStock cmNegPE none).reasons_against = [.noPE] := by
  decide

/-- C2 (amended): for every metrics record whose P/E is present, POSITIVE
and below 15, the P/E factor awards exactly 25 fundamental points and the
"for" reason carrying that P/E value appears in the analysis's (truncated)
reasons_for list. -/
theorem c2_pe_tier_amended (m : StockMetrics) (h? : Option PriceHistory)
    (p : ℚ) (hpe : m.pe = some p) (hpos : 0 < p) (hlt : p < 15) :
    (peFactor (effPE m)).pts = 25 ∧
    Reason.attractivePE p ∈ (analyzeStock m h?).reasons_for := by
  have he : effPE m = some p := by simp [effPE, hpe]
  have hfac : peFactor (effPE m) = ⟨25, [.attractivePE p], []⟩ := by
    rw [he]; simp [peFactor, hpos, hlt]
  refine ⟨by rw [hfac], ?_⟩
  show Reason.attractivePE p ∈ (fundamentalEval m).rFor.take 4
  simp only [fundamentalEval, hfac]
  simp

/-- C2 witness: the amended statement evaluated at the record whose P/E is
12. -/
theorem c2_pe_tier_amended_witness :
    (peFactor (effPE cmPEOnly)).pts = 25 ∧
    Reason.attractivePE 12 ∈ (analyzeStock cmPEOnly none).reasons_for :=
  c2_pe_tier_amended cmPEOnly none 12 rfl (by norm_num) (by norm_num)

/-- C7 counterexample: a usable close series of 31 points has a 3-month
window of 31 points and stride max(1, 31 // 30) = 1, so the sparkline
keeps all 31 points — more than the claimed cap of 30. -/
theorem c7_sparkline_counterexample :
    2 ≤ closes31.length ∧
    sparkStep (window3m closes31).length = 1 ∧
    (sparklineOf closes31).length = 31 ∧
    ¬ (sparklineOf closes31).length ≤ 30 := by
  decide

/-- C7 (amended): for every usable close series (length ≥ 2), the sparkline
is the elementwise 2-decimal rounding of an ordered subsequence of the
3-month window taken at stride max(1, window_len // 30); its point count is
⌈window_len / stride⌉, which is at most 59 (attained by window length 59,
stride 1) — not at most 30. -/
theorem c7_sparkline_amended (closes : List ℚ) (h : 2 ≤ closes.length) :
    List.Sublist (sparklineRaw closes) (window3m closes) ∧
    sparklineOf closes = (sparklineRaw closes).map round2 ∧
    (sparklineOf closes).length
      = ((window3m closes).length + (sparkStep (window3m closes).length - 1))
          / sparkStep (window3m closes).length ∧
    (sparklineOf closes).length ≤ 59 := by
  have hs : 1 ≤ sparkStep (window3m closes).length := le_max_left 1 _
  have hlen : (sparklineOf closes).length
      = ((window3m closes).length + (sparkStep (window3m closes).length - 1))
          / sparkStep (window3m closes).length := by
    simp only [sparklineOf, List.length_map, sparklineRaw, takeEvery]
    rw [takeEveryGo_length _ hs _ 0 (by omega), Nat.sub_zero]
  have hn : (window3m closes).length ≤ 63 := by
    simp only [window3m, List.length_drop]
    omega
  have key : ∀ n < 64, (n + (sparkStep n - 1)) / sparkStep n ≤ 59 := by decide
  exact ⟨takeEveryGo_sublist _ _ 0, rfl, hlen, hlen ▸ key _ (by omega)⟩

/-- C7 witness: the amended statement evaluated at a 10-point series. -/
theorem c7_sparkline_amended_witness :
    List.Sublist (sparklineRaw (List.replicate 10 (2 : ℚ)))
      (window3m (List.replicate 10 (2 : ℚ))) ∧
    sparklineOf (List.replicate 10 (2 : ℚ))
      = (sparklineRaw (List.replicate 10 (2 : ℚ))).map round2 ∧
    (sparklineOf (List.replicate 10 (2 : ℚ))).length
      = ((window3m (List.replicate 10 (2 : ℚ))).length
          + (sparkStep (window3m (List.replicate 10 (2 : ℚ))).length - 1))
          / sparkStep (window3m (List.replicate 10 (2 : ℚ))).length ∧
    (sparklineOf (List.replicate 10 (2 : ℚ))).length ≤ 59 :=
  c7_sparkline_amended (List.replicate 10 2) (by simp)

/-- C10: whenever the trimmed, `$`-stripped, uppercased query is a key of
the static alias table, the resolver returns the table's ticker having made
zero external lookup calls, for every behaviour of the external oracles. -/
theorem c10_alias_no_external (env : ResolverEnv) (q t : String)
    (h : aliasOf (normalizeQuery q) = some t) :
    searchTicker env q = (t, 0) := by
  unfold searchTicker
  simp only [normalizeQuery] at h
  simp [h]

/-- C10 witness: resolving "tesla" against oracles that raise on every
external call still yields "TSLA" with zero external calls. -/
theorem c10_alias_no_external_witness :
    searchTicker trivialResolverEnv "tesla" = ("TSLA", 0) :=
  c10_alias_no_external trivialResolverEnv "tesla" "TSLA" (by decide)

/-- C3 counterexample: the profile lookup succeeds and returns a full
identity, yet an exception raised by the fundamentals fetch makes
`fetch_stock_data` return None — reported "not found" — instead of a
metrics record with absent fields. -/
theorem c3_partial_failure_counterexample :
    upstreamFinRaises.profile = .ok (some goodProfile) ∧
    goodProfile.ticker? = some "AAPL" ∧
    fetchStockData upstreamFinRaises "AAPL" = none ∧
    (fetchStockData upstreamFinRaises "AAPL").isSome = false :=
  ⟨rfl, rfl, rfl, rfl⟩

/-- C3 (amended): the normalizer reports "not found" (returns no record)
iff the profile lookup raises or returns no identity, OR the fundamentals
or real-time-quote fetch raises; when those two fetches merely return empty
data without raising, the affected fields are absent but a metrics record
is still produced. -/
theorem c3_not_found_characterization (u : Upstream) (t : String) :
    (fetchStockData u t = none ↔
      u.profile = .error () ∨ u.profile = .ok none ∨
      (∃ p, u.profile = .ok (some p) ∧ p.ticker? = none) ∨
      u.financials = .error () ∨ u.quote = .error ()) ∧
    (∀ p tk, u.profile = .ok (some p) → p.ticker? = some tk →
      u.financials = .ok none → u.quote = .ok none →
      fetchStockData u t = some
        { ticker := pyUpper t
          company := p.name.getD (pyUpper t)
          price := none
          market_cap := formatMarketCap p.marketCapitalization
          pe := none, forward_pe := none, eps_growth := none
          eps_growth_5y := none, roe := none, roi := none
          debt_equity := none, profit_margin := none, oper_margin := none
          pb := none, ps := none, current_ratio := none, quick_ratio := none
          dividend_yield := none, payout_ratio := none, beta := none
          perf_ytd := none, perf_year := none, w52_high := none
          w52_low := none, short_float := none, insider_own := none
          inst_own := none }) := by
  obtain ⟨pr, fin, q⟩ := u
  constructor
  · rcases pr with e | pr?
    · cases e
      simp [fetchStockData]
    · rcases pr? with _ | p
      · simp [fetchStockData]
      · rcases hp : p.ticker? with _ | tk
        · simp [fetchStockData, hp]
        · rcases fin with e | fin?
          · cases e
            simp [fetchStockData, hp]
          · rcases q with e | q?
            · cases e
              simp [fetchStockData, hp]
            · simp [fetchStockData, hp]
  · rintro p tk hp htk hf hq
    cases hp
    cases hf
    cases hq
    simp [fetchStockData, htk]

/-- C3 witness: with a good profile and empty (non-raising) fundamentals
and quote responses, a metrics record is produced with every metric field
absent. -/
theorem c3_not_found_characterization_witness :
    fetchStockData upstreamEmptyData "AAPL" = some
      { ticker := "AAPL", company := "Apple Inc", price := none
        market_cap := .na
        pe := none, forward_pe := none, eps_growth := none
        eps_growth_5y := none, roe := none, roi := none
        debt_equity := none, profit_margin := none, oper_margin := none
        pb := none, ps := none, current_ratio := none, quick_ratio := none
        dividend_yield := none, payout_ratio := none, beta := none
        perf_ytd := none, perf_year := none, w52_high := none
        w52_low := none, short_float := none, insider_own := none
        inst_own := none } :=
  (c3_not_found_characterization upstreamEmptyData "AAPL").2
    goodProfile "AAPL" rfl rfl rfl rfl

/-- C6: for a fixed date, candidate pool and upstream data, the daily pick
is independent of the pseudo-random generator state on entry — running the
selector twice yields the same analysis, hence the same chosen ticker —
because the shuffle is re-seeded from the ISO date string; and whenever the
shuffled-order scan finds a candidate scoring at least 55, that analysis is
exactly what the selector returns. -/
theorem c6_daily_pick_deterministic (s1 s2 : ℕ) (today : String)
    (env : PickEnv) :
    stockOfTheDay s1 today env = stockOfTheDay s2 today env ∧
    (∀ a, pickFromCandidates env
        (shuffleSeeded (seedOfString today) STOCK_OF_DAY_CANDIDATES) = some a →
      stockOfTheDay s1 today env = some a) := by
  refine ⟨rfl, fun a h => ?_⟩
  simp only [stockOfTheDay]
  rw [h]

/-- C6 witness: on 2026-10-12 with data making every candidate score 58,
the selector run from generator state 0 returns the qualifying analysis
found by the shuffled scan. -/
theorem c6_daily_pick_deterministic_witness :
    stockOfTheDay 0 "2026-10-12" pickEnvStrong
      = some (analyzeStock cmStrong none) :=
  (c6_daily_pick_deterministic 0 1 "2026-10-12" pickEnvStrong).2
    (analyzeStock cmStrong none) (by decide)

end UncleWarren
